import Mathlib

/-!
# Verification of the Microcredit Companies API (src/main.py)

Shallow embedding of the query/filter/aggregation layer of the FastAPI
service in `src/main.py`:

* documents of the store are association lists of scalar BSON-like values;
* the filter builder, the serializer and the aggregator are translated
  function by function from `main.py`;
* Python `float`s are modelled as rationals (`ℚ`), Python exceptions as
  `Except`;
* the document store itself (`database.py`, which is not part of the core
  sources) is modelled from the specification: `insert(collection, doc) -> id`
  and `find(collection, filter, limit) -> docs` capped at `limit`, with the
  `$regex`/`$options: "i"` pattern matcher modelled on patterns made of
  literal characters and the `.` wildcard.
-/

deriving instance DecidableEq for Except

/-- A scalar value stored in a document: `null`, a number (Python `int` and
`float` collapsed into `ℚ`), a string, a store object id (`ObjectId`), or a
datetime (carried as its ISO-8601 rendering, the value `datetime.isoformat()`
returns). -/
inductive BVal where
  | null : BVal
  | num (q : ℚ) : BVal
  | str (s : String) : BVal
  | oid (s : String) : BVal
  | date (iso : String) : BVal
deriving DecidableEq

/-- A document is a Python `dict`: an association list whose keys are unique
(the `Nodup` hypothesis is carried where needed). -/
abbrev Doc := List (String × BVal)

/-- `d[k]` lookup: first binding of `k`. -/
def dLookup (k : String) : Doc → Option BVal
  | [] => none
  | (k', v) :: rest => if k' = k then some v else dLookup k rest

/-- Key removal, as `dict.pop(k)` leaves the dict: the first binding of `k`
is removed. -/
def dErase (k : String) : Doc → Doc
  | [] => []
  | (k', v) :: rest => if k' = k then rest else (k', v) :: dErase k rest

/-- `d[k] = v`: replace the value in place when the key exists, insert at the
end otherwise (Python dicts keep insertion order). -/
def dSet (k : String) (v : BVal) : Doc → Doc
  | [] => [(k, v)]
  | (k', v') :: rest => if k' = k then (k, v) :: rest else (k', v') :: dSet k v rest

/-- The keys of a document, in order. -/
def dKeys (d : Doc) : List String := d.map Prod.fst

/-- Python truthiness of a stored value: `None`, `0` and `""` are falsy;
object ids and datetimes are truthy. -/
def pyTruthy : BVal → Bool
  | .null => false
  | .num q => q ≠ 0
  | .str s => s ≠ ""
  | .oid _ => true
  | .date _ => true

/-- Python `str(...)` on a stored value.  `str(ObjectId(h))` is the hex
string `h`; only this case is exercised by the serializer. -/
def pyStr : BVal → String
  | .null => "None"
  | .num q => toString q
  | .str s => s
  | .oid s => s
  | .date s => s

/-- `hasattr(v, "isoformat")`: true exactly for datetimes. -/
def hasIsoformat : BVal → Bool
  | .date _ => true
  | _ => false

/-- `v.isoformat()` for a datetime value, as a string. -/
def isoformat : BVal → BVal
  | .date s => .str s
  | v => v

/-- `serialize(doc)` from `list_companies` in `src/main.py`:
`doc["id"] = str(doc.pop("_id"))`, then every value having `isoformat` is
replaced by it.  `dict.pop` without default raises `KeyError` when `_id` is
absent, hence the `Option`. -/
def serialize (d : Doc) : Option Doc :=
  match dLookup "_id" d with
  | none => none
  | some v =>
      some ((dSet "id" (.str (pyStr v)) (dErase "_id" d)).map
        (fun p => (p.1, if hasIsoformat p.2 then isoformat p.2 else p.2)))

/-- In the source, `serialize` mutates `doc` in place (`doc.pop`, key
assignment) and returns the same object: the state of the caller's document
after a successful call is the returned mapping.  This definition names that
post-call state of the argument. -/
def serializeInputAfter (d : Doc) : Option Doc := serialize d

/-- Truthiness of an `Optional[str]` parameter (`if q:`): `None` and `""`
are falsy. -/
def truthyOptStr : Option String → Bool
  | none => false
  | some s => s ≠ ""

/-- The `filter_dict` built by `list_companies`: an optional
`{"$regex": pat, "$options": "i"}` constraint on `name` and optional
equality constraints on `country` and `status`. -/
structure QueryFilter where
  nameRe : Option String
  country : Option String
  status : Option String
deriving DecidableEq

/-- QueryFilter construction from `list_companies` (`src/main.py` lines 49-56):
each parameter contributes its constraint only when truthy. -/
def buildFilter (q country status : Option String) : QueryFilter :=
  { nameRe := if truthyOptStr q then q else none
    country := if truthyOptStr country then country else none
    status := if truthyOptStr status then status else none }

/-- An atom of a store search pattern: a literal character or the `.`
wildcard. -/
inductive RAtom where
  | lit (c : Char) : RAtom
  | dot : RAtom
deriving DecidableEq

/-- Modelled from the spec: the store's pattern matcher takes the raw
pattern string; it is modelled on the fragment made of literal characters
and the `.` wildcard. -/
def parsePat (s : String) : List RAtom :=
  s.data.map (fun c => if c = '.' then .dot else .lit c)

/-- Case-insensitive match of one pattern atom against one character. -/
def atomMatch : RAtom → Char → Bool
  | .dot, _ => true
  | .lit c, c' => c.toLower = c'.toLower

/-- Anchored match: the pattern consumes a prefix of the text. -/
def matchHere : List RAtom → List Char → Bool
  | [], _ => true
  | _ :: _, [] => false
  | a :: ps, c :: cs => atomMatch a c && matchHere ps cs

/-- Unanchored search: the pattern matches starting at some position. -/
def searchFrom (p : List RAtom) : List Char → Bool
  | [] => matchHere p []
  | c :: cs => matchHere p (c :: cs) || searchFrom p cs

/-- Modelled from the spec: the store's case-insensitive pattern search
(`$regex` with `$options: "i"`), on the modelled pattern fragment. -/
def regexSearchCI (pat s : String) : Bool :=
  searchFrom (parsePat pat) s.data

/-- Case-insensitive literal substring test, the matching the spec ascribes
to the `q` parameter. -/
def ciSubstring (pat s : String) : Bool :=
  decide ((pat.data.map Char.toLower) <:+: (s.data.map Char.toLower))

/-- Evaluation of a filter against one document (store semantics: an
equality constraint on an absent field does not match). -/
def filterMatches (f : QueryFilter) (d : Doc) : Bool :=
  (match f.nameRe with
   | none => true
   | some pat =>
       match dLookup "name" d with
       | some (.str s) => regexSearchCI pat s
       | _ => false) &&
  (match f.country with
   | none => true
   | some c =>
       match dLookup "country" d with
       | some (.str s) => s = c
       | _ => false) &&
  (match f.status with
   | none => true
   | some st =>
       match dLookup "status" d with
       | some (.str s) => s = st
       | _ => false)

/-- The filter semantics claimed by the spec for `list`: the logical AND of
exactly the constraints of the present (non-`None`) parameters, with `q`
read as a case-insensitive substring of `name`. -/
def specFilterPred (q country status : Option String) (d : Doc) : Bool :=
  (match q with
   | none => true
   | some pat =>
       match dLookup "name" d with
       | some (.str s) => ciSubstring pat s
       | _ => false) &&
  (match country with
   | none => true
   | some c =>
       match dLookup "country" d with
       | some (.str s) => s = c
       | _ => false) &&
  (match status with
   | none => true
   | some st =>
       match dLookup "status" d with
       | some (.str s) => s = st
       | _ => false)

/-- Digit run to a natural number. -/
def digitsToNat (cs : List Char) : Nat :=
  cs.foldl (fun a c => a * 10 + (c.toNat - 48)) 0

/-- Strip one optional leading sign; `true` means negative. -/
def parseSign : List Char → Bool × List Char
  | [] => (false, [])
  | c :: cs =>
      if c = '-' then (true, cs)
      else if c = '+' then (false, cs)
      else (false, c :: cs)

/-- Unsigned decimal literal `"12"`, `"12.5"`, `"12."`, `".5"` — the
fragment of Python number-literal syntax the model covers — read as
(integer part, fraction digits, number of fraction digits). -/
def parseFloatParts (cs : List Char) : Option (Nat × Nat × Nat) :=
  match cs.span (· ≠ '.') with
  | (ip, []) =>
      if ip ≠ [] ∧ ip.all Char.isDigit then some (digitsToNat ip, 0, 0) else none
  | (ip, _ :: fp) =>
      if (ip ≠ [] ∨ fp ≠ []) ∧ ip.all Char.isDigit ∧ fp.all Char.isDigit then
        some (digitsToNat ip, digitsToNat fp, fp.length)
      else none

/-- Signed decimal literal. -/
def parseSignedFloat (cs : List Char) : Option (Bool × Nat × Nat × Nat) :=
  (parseFloatParts (parseSign cs).2).map (fun p => ((parseSign cs).1, p))

/-- The rational a decimal literal denotes. -/
def partsToRat : Nat × Nat × Nat → ℚ
  | (ip, fp, len) => (ip : ℚ) + (fp : ℚ) / (10 : ℚ) ^ len

/-- Python `float(s)` on a string (modelled fragment: optional sign and a
decimal literal); `none` is a raised `ValueError`. -/
def pyFloatOfString (s : String) : Option ℚ :=
  (parseSignedFloat s.data).map
    (fun p => if p.1 then -(partsToRat p.2) else partsToRat p.2)

/-- Signed digit run, Python `int()` string syntax (modelled fragment). -/
def parseSignedInt (cs : List Char) : Option (Bool × Nat) :=
  if (parseSign cs).2 ≠ [] ∧ (parseSign cs).2.all Char.isDigit then
    some ((parseSign cs).1, digitsToNat (parseSign cs).2)
  else none

/-- Python `int(s)` on a string: optional sign and digits only (no decimal
point); `none` is a raised `ValueError`. -/
def pyIntOfString (s : String) : Option ℤ :=
  (parseSignedInt s.data).map
    (fun p => if p.1 then -(p.2 : ℤ) else (p.2 : ℤ))

/-- Truncation toward zero, Python `int()` applied to a float. -/
def ratTrunc (q : ℚ) : ℤ :=
  if 0 ≤ q then ⌊q⌋ else ⌈q⌉

/-- Python `float(v)` on a stored value; the error string is the raised
`ValueError`/`TypeError` message. -/
def pyFloat : BVal → Except String ℚ
  | .num q => .ok q
  | .str s =>
      match pyFloatOfString s with
      | some q => .ok q
      | none => .error "could not convert string to float"
  | _ => .error "float() argument must be a string or a real number"

/-- Python `int(v)` on a stored value. -/
def pyInt : BVal → Except String ℤ
  | .num q => .ok (ratTrunc q)
  | .str s =>
      match pyIntOfString s with
      | some n => .ok n
      | none => .error "invalid literal for int() with base 10"
  | _ => .error "int() argument must be a string or a real number"

/-- `c.get(k, 0)`: the stored value, or the number 0 when the key is
absent. -/
def getOr0 (k : String) (d : Doc) : BVal :=
  match dLookup k d with
  | some v => v
  | none => .num 0

/-- `v or 0`: the value when truthy, the number 0 otherwise. -/
def orZero (v : BVal) : BVal :=
  if pyTruthy v then v else .num 0

/-- Round half to even at integer precision, as Python `round` behaves on
exact decimal inputs. -/
def roundHalfEven (q : ℚ) : ℤ :=
  if q - ⌊q⌋ < 1 / 2 then ⌊q⌋
  else if 1 / 2 < q - ⌊q⌋ then ⌊q⌋ + 1
  else if ⌊q⌋ % 2 = 0 then ⌊q⌋ else ⌊q⌋ + 1

/-- Python `round(x, 2)`. -/
def round2 (q : ℚ) : ℚ := (roundHalfEven (q * 100) : ℚ) / 100

/-- An error surfaced by an endpoint: an HTTP error response
(`HTTPException(status, detail)` or the 422 a failed request validation
produces), or an uncaught Python exception. -/
inductive ApiError where
  | http (status : Nat) (detail : String) : ApiError
  | runtime (msg : String) : ApiError
deriving DecidableEq

/-- The `ServiceUnavailable` error each endpoint raises when the store
handle is `None`: `HTTPException(status_code=500, detail="Database not configured")`. -/
def dbNotConfigured : ApiError := .http 500 "Database not configured"

/-- Lift a raised Python exception into an endpoint outcome. -/
def liftRT {α : Type} : Except String α → Except ApiError α
  | .ok a => .ok a
  | .error m => .error (.runtime m)

/-- The document store: the `company` collection and the next id the store
will assign.  Modelled from the spec: the store is an opaque persistence
service exposing insert and find-by-filter. -/
structure Store where
  company : List Doc
  nextId : Nat
deriving DecidableEq

/-- Modelled from the spec: `database.get_documents(collection, filter, limit)`
returns the documents matching the filter, capped at `limit`. -/
def get_documents (st : Store) (f : QueryFilter) (limit : ℤ) : List Doc :=
  (st.company.filter (filterMatches f)).take limit.toNat

/-- Modelled from the spec: `database.create_document(collection, doc)`
inserts the document, assigning a fresh id, and returns the id as a
string. -/
def create_document (st : Store) (d : Doc) : String × Store :=
  (toString st.nextId,
   { company := st.company ++ [("_id", .oid (toString st.nextId)) :: d],
     nextId := st.nextId + 1 })

/-- FastAPI validation of the `limit` query parameter,
`Query(100, ge=1, le=500)`: absent means 100, out-of-range is rejected with
a 422 before the handler runs. -/
def validateLimit : Option ℤ → Except ApiError ℤ
  | none => .ok 100
  | some n =>
      if 1 ≤ n ∧ n ≤ 500 then .ok n
      else .error (.http 422 "Input should be between 1 and 500")

/-- `[serialize(d) for d in docs]`: independent per-document serialization;
a raised `KeyError` aborts the comprehension. -/
def serializeAll (docs : List Doc) : Option (List Doc) := docs.mapM serialize

/-- `GET /api/companies` (`list_companies` in `src/main.py`): validate
`limit`, require the store, build the filter, query, serialize each
document. -/
def list_companies (db : Option Store) (q country status : Option String)
    (rawLimit : Option ℤ) : Except ApiError (List Doc) :=
  match validateLimit rawLimit with
  | .error e => .error e
  | .ok limit =>
      match db with
      | none => .error dbNotConfigured
      | some st =>
          match serializeAll (get_documents st (buildFilter q country status) limit) with
          | some out => .ok out
          | none => .error (.runtime "KeyError: _id")

/-- The aggregate record `company_stats` returns. -/
structure Stats where
  total_companies : Nat
  total_portfolio_usd : ℚ
  avg_par30 : ℚ
  active_borrowers : ℤ
  countries_count : Nat
deriving DecidableEq

/-- `sum(f(c) for c in l)` where each term can raise: the first raised
exception aborts the sum. -/
def exSum {α : Type} [AddCommMonoid α] (f : Doc → Except String α)
    (l : List Doc) : Except String α :=
  (l.mapM f).map List.sum

/-- The `portfolio_usd` term of the aggregation:
`float(c.get("portfolio_usd", 0) or 0)`. -/
def portfolioTerm (d : Doc) : Except String ℚ :=
  pyFloat (orZero (getOr0 "portfolio_usd" d))

/-- The `active_borrowers` term: `int(c.get("active_borrowers", 0) or 0)`. -/
def borrowersTerm (d : Doc) : Except String ℤ :=
  pyInt (orZero (getOr0 "active_borrowers" d))

/-- The `par30` term: `float(c.get("par30", 0) or 0)`. -/
def par30Term (d : Doc) : Except String ℚ :=
  pyFloat (orZero (getOr0 "par30" d))

/-- One representative per distinct element, as a Python `set` retains. -/
def distinctVals : List BVal → List BVal
  | [] => []
  | v :: rest => if v ∈ rest then distinctVals rest else v :: distinctVals rest

/-- The distinct truthy `country` values:
`{c.get("country", "") for c in companies if c.get("country")}`. -/
def countriesSet (companies : List Doc) : List BVal :=
  distinctVals (companies.filterMap
    (fun c =>
      match dLookup "country" c with
      | some v => if pyTruthy v then some v else none
      | none => none))

/-- `GET /api/companies/stats` (`company_stats` in `src/main.py`): require
the store, scan the whole collection, and compute the five aggregates; an
uncoercible field value raises. -/
def company_stats (db : Option Store) : Except ApiError Stats :=
  match db with
  | none => .error dbNotConfigured
  | some st =>
      let companies := st.company
      let total := companies.length
      if total = 0 then
        .ok ⟨0, 0, 0, 0, 0⟩
      else
        match exSum portfolioTerm companies with
        | .error m => .error (.runtime m)
        | .ok totalPortfolio =>
            match exSum borrowersTerm companies with
            | .error m => .error (.runtime m)
            | .ok totalBorrowers =>
                match exSum par30Term companies with
                | .error m => .error (.runtime m)
                | .ok sumPar30 =>
                    .ok ⟨total, round2 totalPortfolio,
                         round2 (sumPar30 / total),
                         totalBorrowers, (countriesSet companies).length⟩

/-- A validated `CompanyIn` payload (`src/main.py` lines 20-30). -/
structure Company where
  name : String
  license_id : Option String
  country : String
  region : Option String
  portfolio_usd : ℚ
  active_borrowers : ℤ
  par30 : ℚ
  avg_interest_rate : ℚ
  status : String
  rating : Option ℚ
deriving DecidableEq

/-- Pydantic's lax coercion to `float`: numbers and numeric strings. -/
def coerceFloat : BVal → Option ℚ
  | .num q => some q
  | .str s => pyFloatOfString s
  | _ => none

/-- Pydantic's lax coercion to `int`: integers, floats with no fractional
part, integer strings. -/
def coerceInt : BVal → Option ℤ
  | .num q => if q.den = 1 then some q.num else none
  | .str s => pyIntOfString s
  | _ => none

/-- A required `str` field: missing or non-string input is a validation
error. -/
def vReqStr (k : String) (p : Doc) : Except String String :=
  match dLookup k p with
  | some (.str s) => .ok s
  | some _ => .error (k ++ ": Input should be a valid string")
  | none => .error (k ++ ": Field required")

/-- An `Optional[str]` field defaulting to `None`. -/
def vOptStr (k : String) (p : Doc) : Except String (Option String) :=
  match dLookup k p with
  | none => .ok none
  | some .null => .ok none
  | some (.str s) => .ok (some s)
  | some _ => .error (k ++ ": Input should be a valid string")

/-- A `str` field with a default. -/
def vStrDefault (k : String) (dflt : String) (p : Doc) : Except String String :=
  match dLookup k p with
  | none => .ok dflt
  | some (.str s) => .ok s
  | some _ => .error (k ++ ": Input should be a valid string")

/-- A `float` field with default 0 and bounds `ge`/`le` (`le = none` for
unbounded above). -/
def vFloat (k : String) (ge : ℚ) (le : Option ℚ) (p : Doc) : Except String ℚ :=
  match dLookup k p with
  | none => .ok 0
  | some v =>
      match coerceFloat v with
      | none => .error (k ++ ": Input should be a valid number")
      | some q =>
          if q < ge then .error (k ++ ": Input should be greater than or equal to the lower bound")
          else
            match le with
            | none => .ok q
            | some u =>
                if u < q then .error (k ++ ": Input should be less than or equal to the upper bound")
                else .ok q

/-- An `int` field with default 0 and lower bound `ge`. -/
def vIntGe (k : String) (ge : ℤ) (p : Doc) : Except String ℤ :=
  match dLookup k p with
  | none => .ok 0
  | some v =>
      match coerceInt v with
      | none => .error (k ++ ": Input should be a valid integer")
      | some n =>
          if n < ge then .error (k ++ ": Input should be greater than or equal to the lower bound")
          else .ok n

/-- An `Optional[float]` field with bounds, defaulting to `None`. -/
def vOptFloat (k : String) (ge le : ℚ) (p : Doc) : Except String (Option ℚ) :=
  match dLookup k p with
  | none => .ok none
  | some .null => .ok none
  | some v =>
      match coerceFloat v with
      | none => .error (k ++ ": Input should be a valid number")
      | some q =>
          if q < ge then .error (k ++ ": Input should be greater than or equal to the lower bound")
          else if le < q then .error (k ++ ": Input should be less than or equal to the upper bound")
          else .ok q

/-- Request-body validation against `CompanyIn` (`src/main.py` lines 20-30),
run by FastAPI before the handler body.  Pydantic reports every failing
field; the model surfaces the first. -/
def validateCompanyIn (p : Doc) : Except String Company := do
  let name ← vReqStr "name" p
  let license_id ← vOptStr "license_id" p
  let country ← vReqStr "country" p
  let region ← vOptStr "region" p
  let portfolio_usd ← vFloat "portfolio_usd" 0 none p
  let active_borrowers ← vIntGe "active_borrowers" 0 p
  let par30 ← vFloat "par30" 0 (some 100) p
  let avg_interest_rate ← vFloat "avg_interest_rate" 0 (some 200) p
  let status ← vStrDefault "status" "active" p
  let rating ← vOptFloat "rating" 0 5 p
  pure ⟨name, license_id, country, region, portfolio_usd, active_borrowers,
        par30, avg_interest_rate, status, rating⟩

/-- `payload.model_dump()`: the validated model as a document, `None` for
absent optionals. -/
def model_dump (c : Company) : Doc :=
  [("name", .str c.name),
   ("license_id", match c.license_id with | some s => .str s | none => .null),
   ("country", .str c.country),
   ("region", match c.region with | some s => .str s | none => .null),
   ("portfolio_usd", .num c.portfolio_usd),
   ("active_borrowers", .num c.active_borrowers),
   ("par30", .num c.par30),
   ("avg_interest_rate", .num c.avg_interest_rate),
   ("status", .str c.status),
   ("rating", match c.rating with | some q => .num q | none => .null)]

/-- `POST /api/companies` (`create_company` in `src/main.py`): FastAPI
validates the payload (422 on failure) before the handler checks the store
handle; on success the document is inserted and the assigned id returned.
The second component is the store state after the call. -/
def create_company (db : Option Store) (payload : Doc) :
    Except ApiError String × Option Store :=
  match validateCompanyIn payload with
  | .error m => (.error (.http 422 m), db)
  | .ok c =>
      match db with
      | none => (.error dbNotConfigured, none)
      | some st =>
          let (i, st') := create_document st (model_dump c)
          (.ok i, some st')

lemma dLookup_mapVals (f : BVal → BVal) (k : String) (d : Doc) :
    dLookup k (d.map (fun p => (p.1, f p.2))) = (dLookup k d).map f := by
  induction d with
  | nil => rfl
  | cons p rest ih =>
      obtain ⟨k', v⟩ := p
      by_cases h : k' = k <;> simp [dLookup, h, ih]

lemma dLookup_dSet_self (k : String) (v : BVal) (d : Doc) :
    dLookup k (dSet k v d) = some v := by
  induction d with
  | nil => simp [dSet, dLookup]
  | cons p rest ih =>
      obtain ⟨k', v'⟩ := p
      by_cases h : k' = k <;> simp [dSet, dLookup, h, ih]

lemma dLookup_dSet_ne (k k' : String) (v : BVal) (d : Doc) (h : k' ≠ k) :
    dLookup k' (dSet k v d) = dLookup k' d := by
  induction d with
  | nil => simp [dSet, dLookup, Ne.symm h]
  | cons p rest ih =>
      obtain ⟨k'', v'⟩ := p
      by_cases h2 : k'' = k
      · subst h2
        simp [dSet, dLookup, Ne.symm h]
      · simp only [dSet, if_neg h2, dLookup]
        by_cases h3 : k'' = k' <;> simp [h3, ih]

lemma dKeys_dErase (k : String) (d : Doc) :
    dKeys (dErase k d) = (dKeys d).erase k := by
  induction d with
  | nil => rfl
  | cons p rest ih =>
      obtain ⟨k', v⟩ := p
      by_cases h : k' = k
      · subst h
        simp [dErase, dKeys, List.erase_cons]
      · simp only [dErase, if_neg h, dKeys, List.map_cons]
        rw [List.erase_cons, if_neg (show ¬ ((k' == k) = true) by simpa using h)]
        have := ih
        simp only [dKeys] at this
        simp [this]

lemma dLookup_eq_none_of_not_mem (k : String) (d : Doc) (h : k ∉ dKeys d) :
    dLookup k d = none := by
  induction d with
  | nil => rfl
  | cons p rest ih =>
      obtain ⟨k', v⟩ := p
      simp only [dKeys, List.map_cons, List.mem_cons, not_or] at h
      simp [dLookup, Ne.symm h.1, ih (by simpa [dKeys] using h.2)]

lemma dLookup_dErase_self (k : String) (d : Doc) (h : (dKeys d).Nodup) :
    dLookup k (dErase k d) = none := by
  induction d with
  | nil => rfl
  | cons p rest ih =>
      obtain ⟨k', v⟩ := p
      simp only [dKeys, List.map_cons, List.nodup_cons] at h
      by_cases h2 : k' = k
      · subst h2
        simp only [dErase, if_pos rfl]
        exact dLookup_eq_none_of_not_mem k' rest (by simpa [dKeys] using h.1)
      · simp [dErase, dLookup, h2, ih (by simpa [dKeys] using h.2)]

lemma dLookup_dErase_ne (k k' : String) (d : Doc) (h : k' ≠ k) :
    dLookup k' (dErase k d) = dLookup k' d := by
  induction d with
  | nil => rfl
  | cons p rest ih =>
      obtain ⟨k'', v⟩ := p
      by_cases h2 : k'' = k
      · subst h2
        simp [dErase, dLookup, Ne.symm h]
      · simp only [dErase, if_neg h2, dLookup]
        by_cases h3 : k'' = k' <;> simp [h3, ih]

lemma dKeys_mapVals (f : BVal → BVal) (d : Doc) :
    dKeys (d.map (fun p => (p.1, f p.2))) = dKeys d := by
  induction d with
  | nil => rfl
  | cons p rest ih =>
      obtain ⟨k, v⟩ := p
      simp only [List.map_cons, dKeys] at ih ⊢
      simp [ih]

lemma dKeys_dSet_mem (k : String) (v : BVal) (d : Doc) (h : k ∈ dKeys d) :
    dKeys (dSet k v d) = dKeys d := by
  induction d with
  | nil => simp [dKeys] at h
  | cons p rest ih =>
      obtain ⟨k', v'⟩ := p
      by_cases h2 : k' = k
      · subst h2
        simp [dSet, dKeys]
      · simp only [dKeys, List.map_cons, List.mem_cons] at h
        rcases h with h | h
        · exact absurd h.symm h2
        · simp only [dSet, if_neg h2, dKeys, List.map_cons]
          have := ih (by simpa [dKeys] using h)
          simpa [dKeys] using this

lemma dKeys_dSet_not_mem (k : String) (v : BVal) (d : Doc) (h : k ∉ dKeys d) :
    dKeys (dSet k v d) = dKeys d ++ [k] := by
  induction d with
  | nil => rfl
  | cons p rest ih =>
      obtain ⟨k', v'⟩ := p
      simp only [dKeys, List.map_cons, List.mem_cons, not_or] at h
      by_cases h2 : k' = k
      · exact absurd h2.symm h.1
      · simp only [dSet, if_neg h2, dKeys, List.map_cons]
        have := ih (by simpa [dKeys] using h.2)
        simpa [dKeys] using this

lemma serialize_eq (d : Doc) (v : BVal) (hv : dLookup "_id" d = some v) :
    serialize d = some ((dSet "id" (.str (pyStr v)) (dErase "_id" d)).map
      (fun p => (p.1, if hasIsoformat p.2 then isoformat p.2 else p.2))) := by
  simp [serialize, hv]

lemma serialize_spec (d : Doc) (v : BVal) (hn : (dKeys d).Nodup)
    (hv : dLookup "_id" d = some v) :
    ∃ out, serialize d = some out ∧
      dLookup "id" out = some (.str (pyStr v)) ∧
      dLookup "_id" out = none ∧
      (dKeys out).Nodup ∧
      (dKeys out).count "id" = 1 ∧
      ∀ k, k ≠ "id" → k ≠ "_id" →
        dLookup k out = (dLookup k d).map
          (fun w => if hasIsoformat w then isoformat w else w) := by
  have hne1 : ("_id" : String) ≠ "id" := by decide
  refine ⟨_, serialize_eq d v hv, ?_, ?_, ?_, ?_, ?_⟩
  · rw [dLookup_mapVals (fun w => if hasIsoformat w then isoformat w else w), dLookup_dSet_self]
    simp [hasIsoformat]
  · rw [dLookup_mapVals (fun w => if hasIsoformat w then isoformat w else w), dLookup_dSet_ne _ _ _ _ hne1, dLookup_dErase_self _ _ hn]
    rfl
  · rw [dKeys_mapVals (fun w => if hasIsoformat w then isoformat w else w)]
    by_cases hmem : "id" ∈ dKeys (dErase "_id" d)
    · rw [dKeys_dSet_mem _ _ _ hmem, dKeys_dErase]
      exact hn.erase _
    · rw [dKeys_dSet_not_mem _ _ _ hmem]
      refine List.Nodup.append ?_ (by simp) (by simpa using hmem)
      rw [dKeys_dErase]
      exact hn.erase _
  · rw [dKeys_mapVals (fun w => if hasIsoformat w then isoformat w else w)]
    by_cases hmem : "id" ∈ dKeys (dErase "_id" d)
    · rw [dKeys_dSet_mem _ _ _ hmem]
      refine List.count_eq_one_of_mem ?_ hmem
      rw [dKeys_dErase]
      exact hn.erase _
    · rw [dKeys_dSet_not_mem _ _ _ hmem, List.count_append,
        List.count_eq_zero_of_not_mem hmem]
      simp
  · intro k hkid hkuid
    rw [dLookup_mapVals (fun w => if hasIsoformat w then isoformat w else w), dLookup_dSet_ne _ _ _ _ hkid, dLookup_dErase_ne _ _ _ hkuid]

lemma optionMapM_length {α β : Type} (f : α → Option β) :
    ∀ (l : List α) (out : List β), l.mapM f = some out → out.length = l.length := by
  intro l
  induction l with
  | nil =>
      intro out h
      simp only [List.mapM_nil, Option.pure_def, Option.some.injEq] at h
      simp [← h]
  | cons a rest ih =>
      intro out h
      simp only [List.mapM_cons, Option.bind_eq_bind, Option.bind_eq_some,
        Option.pure_def, Option.some.injEq] at h
      obtain ⟨b, hb, bs, hbs, hout⟩ := h
      simp [hout.symm, ih bs hbs]

lemma optionMapM_get {α β : Type} (f : α → Option β) :
    ∀ (l : List α) (out : List β), l.mapM f = some out →
      ∀ (i : Nat) (h1 : i < l.length) (h2 : i < out.length),
        f (l.get ⟨i, h1⟩) = some (out.get ⟨i, h2⟩) := by
  intro l
  induction l with
  | nil => intro out h i h1; simp at h1
  | cons a rest ih =>
      intro out h i h1 h2
      simp only [List.mapM_cons, Option.bind_eq_bind, Option.bind_eq_some,
        Option.pure_def, Option.some.injEq] at h
      obtain ⟨b, hb, bs, hbs, hout⟩ := h
      subst hout
      cases i with
      | zero => simpa using hb
      | succ j =>
          simp only [List.get_cons_succ]
          exact ih bs hbs j (by simpa using h1) (by simpa using h2)

/-- C2: the claim that `serialize` leaves its input document unchanged is
false — `serialize` pops `_id` and writes `id` into the document it is
given, so after the call the document `{"_id": ObjectId("a")}` has become
`{"id": "a"}`, not the original. -/
theorem C2_counterexample :
    serializeInputAfter [("_id", BVal.oid "a")] = some [("id", BVal.str "a")] ∧
      some [("id", BVal.str "a")] ≠ some [("_id", BVal.oid "a")] := by
  constructor
  · decide
  · decide

/-- C2 (amended): `serialize` is not pure — it mutates the document passed
in: after a successful call the caller's document is the serialized output,
its `_id` binding removed and an `id` binding holding the id string.  It is
applied independently per document: serializing a list succeeds exactly
per-element, and the i-th output is the serialization of the i-th input
alone. -/
theorem C2_amended :
    (∀ (d : Doc) (v : BVal), (dKeys d).Nodup → dLookup "_id" d = some v →
        ∃ out, serializeInputAfter d = some out ∧ serialize d = some out ∧
          dLookup "_id" out = none ∧ dLookup "id" out = some (.str (pyStr v))) ∧
    (∀ (ds : List Doc) (out : List Doc), serializeAll ds = some out →
        out.length = ds.length ∧
        ∀ (i : Nat) (h1 : i < ds.length) (h2 : i < out.length),
          serialize (ds.get ⟨i, h1⟩) = some (out.get ⟨i, h2⟩)) := by
  constructor
  · intro d v hn hv
    obtain ⟨out, h1, h2, h3, _, _, _⟩ := serialize_spec d v hn hv
    exact ⟨out, h1, h1, h3, h2⟩
  · intro ds out h
    exact ⟨optionMapM_length serialize ds out h, optionMapM_get serialize ds out h⟩

/-- Closed instance of `C2_amended`: the mutation facts at
`{"_id": ObjectId("a")}` and per-element serialization of a one-document
list. -/
theorem C2_witness :
    (∃ out, serializeInputAfter [("_id", BVal.oid "a")] = some out ∧
        serialize [("_id", BVal.oid "a")] = some out ∧
        dLookup "_id" out = none ∧
        dLookup "id" out = some (.str (pyStr (BVal.oid "a")))) ∧
    serialize ([[("_id", BVal.oid "b")]].get ⟨0, by decide⟩) =
      some ([[("id", BVal.str "b")]].get ⟨0, by decide⟩) := by
  constructor
  · exact C2_amended.1 [("_id", BVal.oid "a")] (BVal.oid "a") (by decide) (by decide)
  · exact (C2_amended.2 [[("_id", BVal.oid "b")]] [[("id", BVal.str "b")]]
      (by decide)).2 0 (by decide) (by decide)

/-- C4: for every stored document (unique keys, `_id` present), `serialize`
succeeds; the output holds exactly one `id` binding, whose value is the
string form of the store identifier; `_id` is absent from the output; and
every other field is copied as-is except temporal values, which become
their ISO-8601 strings.  Documents missing optional fields need no other
key than `_id`. -/
theorem C4_serialize_contract (d : Doc) (v : BVal) (hn : (dKeys d).Nodup)
    (hv : dLookup "_id" d = some v) :
    ∃ out, serialize d = some out ∧
      dLookup "id" out = some (.str (pyStr v)) ∧
      dLookup "_id" out = none ∧
      (dKeys out).count "id" = 1 ∧
      ∀ k, k ≠ "id" → k ≠ "_id" →
        dLookup k out = (dLookup k d).map
          (fun w => if hasIsoformat w then isoformat w else w) := by
  obtain ⟨out, h1, h2, h3, _, h5, h6⟩ := serialize_spec d v hn hv
  exact ⟨out, h1, h2, h3, h5, h6⟩

/-- Closed instance of `C4_serialize_contract` on a document with a datetime
field and no optional fields beyond it. -/
theorem C4_witness :
    ∃ out,
      serialize [("_id", BVal.oid "x"), ("created_at", BVal.date "2024-01-02T03:04:05"),
        ("name", BVal.str "Acme")] = some out ∧
      dLookup "id" out = some (.str (pyStr (BVal.oid "x"))) ∧
      dLookup "_id" out = none ∧
      (dKeys out).count "id" = 1 ∧
      dLookup "created_at" out = some (BVal.str "2024-01-02T03:04:05") := by
  obtain ⟨out, h1, h2, h3, h4, h5⟩ :=
    C4_serialize_contract
      [("_id", BVal.oid "x"), ("created_at", BVal.date "2024-01-02T03:04:05"),
        ("name", BVal.str "Acme")] (BVal.oid "x") (by decide) (by decide)
  refine ⟨out, h1, h2, h3, h4, ?_⟩
  rw [h5 "created_at" (by decide) (by decide)]
  decide

lemma parsePat_no_dot (pat : String) (h : pat.data.all (fun c => c ≠ '.')) :
    parsePat pat = pat.data.map RAtom.lit := by
  unfold parsePat
  apply List.map_congr_left
  intro c hc
  have := List.all_eq_true.mp h c hc
  simp at this
  simp [this]

lemma matchHere_lit (l : List Char) :
    ∀ cs : List Char,
      matchHere (l.map RAtom.lit) cs =
        decide ((l.map Char.toLower) <+: (cs.map Char.toLower)) := by
  induction l with
  | nil => intro cs; simp [matchHere]
  | cons a l' ih =>
      intro cs
      cases cs with
      | nil => simp [matchHere]
      | cons c cs' =>
          simp [matchHere, atomMatch, List.cons_prefix_cons, ih]

lemma searchFrom_lit (l : List Char) :
    ∀ cs : List Char,
      searchFrom (l.map RAtom.lit) cs =
        decide ((l.map Char.toLower) <:+: (cs.map Char.toLower)) := by
  intro cs
  induction cs with
  | nil =>
      simp only [searchFrom, matchHere_lit, List.map_nil]
      simp [List.prefix_nil, List.infix_nil]
  | cons c cs' ih =>
      simp only [searchFrom, matchHere_lit, List.map_cons, ih]
      rw [← Bool.decide_or, decide_eq_decide]
      exact List.infix_cons_iff.symm

lemma regexSearchCI_substring (pat s : String)
    (h : pat.data.all (fun c => c ≠ '.')) :
    regexSearchCI pat s = ciSubstring pat s := by
  unfold regexSearchCI ciSubstring
  rw [parsePat_no_dot pat h, searchFrom_lit]

/-- The filter semantics that actually hold for `list`: only truthy
(present and non-empty) parameters contribute a constraint, and `q` is
interpreted by the store's pattern matcher, not as a literal substring. -/
def amendedFilterPred (q country status : Option String) (d : Doc) : Bool :=
  (match q with
   | none => true
   | some pat =>
       if pat = "" then true
       else
         match dLookup "name" d with
         | some (.str s) => regexSearchCI pat s
         | _ => false) &&
  (match country with
   | none => true
   | some c =>
       if c = "" then true
       else
         match dLookup "country" d with
         | some (.str s) => s = c
         | _ => false) &&
  (match status with
   | none => true
   | some st =>
       if st = "" then true
       else
         match dLookup "status" d with
         | some (.str s) => s = st
         | _ => false)

/-- C3: the claim is refuted at two concrete requests against the document
`{"name": "axc", "country": "FR"}`.  With `country=""` (a present
parameter) the built filter matches the document although its country is
not `""`; with `q="a.c"` the built filter matches although `"a.c"` is not a
substring of `"axc"` (the store treats `q` as a pattern and `.` matches
`x`). -/
theorem C3_counterexample :
    (filterMatches (buildFilter none (some "") none)
        [("name", BVal.str "axc"), ("country", BVal.str "FR")] = true ∧
      specFilterPred none (some "") none
        [("name", BVal.str "axc"), ("country", BVal.str "FR")] = false) ∧
    (filterMatches (buildFilter (some "a.c") none none)
        [("name", BVal.str "axc"), ("country", BVal.str "FR")] = true ∧
      specFilterPred (some "a.c") none none
        [("name", BVal.str "axc"), ("country", BVal.str "FR")] = false) := by
  decide

/-- C3 (amended): the built filter is the logical AND of exactly the
constraints of the truthy (present and non-empty) parameters — `country`
and `status` as exact matches, `q` as a case-insensitive pattern handed to
the store's matcher; an absent or empty parameter imposes no constraint,
and with no constraint the filter matches every record.  For a pattern
without metacharacters (no `.` in the modelled fragment) the pattern
constraint coincides with the claimed case-insensitive substring match. -/
theorem C3_amended :
    (∀ (q country status : Option String) (d : Doc),
        filterMatches (buildFilter q country status) d =
          amendedFilterPred q country status d) ∧
    (∀ pat s : String, pat.data.all (fun c => c ≠ '.') →
        regexSearchCI pat s = ciSubstring pat s) ∧
    (∀ d : Doc, filterMatches (buildFilter none none none) d = true) := by
  refine ⟨?_, regexSearchCI_substring, ?_⟩
  · intro q c s d
    unfold filterMatches buildFilter amendedFilterPred truthyOptStr
    cases q <;> cases c <;> cases s <;> simp only [] <;> split_ifs <;> simp_all
  · intro d
    simp [filterMatches, buildFilter, truthyOptStr]

/-- Closed instance of `C3_amended`: the filter/predicate agreement at one
request, and pattern-substring agreement for the dot-free pattern `"ab"`. -/
theorem C3_witness :
    filterMatches (buildFilter (some "ab") (some "KE") none)
        [("name", BVal.str "xABy"), ("country", BVal.str "KE")] =
      amendedFilterPred (some "ab") (some "KE") none
        [("name", BVal.str "xABy"), ("country", BVal.str "KE")] ∧
    regexSearchCI "ab" "xABy" = ciSubstring "ab" "xABy" := by
  exact ⟨C3_amended.1 (some "ab") (some "KE") none _,
    C3_amended.2.1 "ab" "xABy" (by decide)⟩

/-- C10: a query parameter supplied as the empty string builds exactly the
filter built when the parameter is absent — `country=""` does not constrain
`country` — and consequently `list` answers such requests identically. -/
theorem C10_empty_param_like_absent :
    ∀ (q country status : Option String) (db : Option Store) (lim : Option ℤ),
      buildFilter (some "") country status = buildFilter none country status ∧
      buildFilter q (some "") status = buildFilter q none status ∧
      buildFilter q country (some "") = buildFilter q country none ∧
      list_companies db (some "") country status lim =
        list_companies db none country status lim ∧
      list_companies db q (some "") status lim =
        list_companies db q none status lim ∧
      list_companies db q country (some "") lim =
        list_companies db q country none lim := by
  intro q c s db lim
  have h1 : buildFilter (some "") c s = buildFilter none c s := by
    simp [buildFilter, truthyOptStr]
  have h2 : buildFilter q (some "") s = buildFilter q none s := by
    simp [buildFilter, truthyOptStr]
  have h3 : buildFilter q c (some "") = buildFilter q c none := by
    simp [buildFilter, truthyOptStr]
  refine ⟨h1, h2, h3, ?_, ?_, ?_⟩
  · unfold list_companies
    rw [h1]
  · unfold list_companies
    rw [h2]
  · unfold list_companies
    rw [h3]

lemma exceptMapM_ok {ε α β : Type} (f : α → Except ε β) (g : α → β) :
    ∀ l : List α, (∀ d ∈ l, f d = .ok (g d)) → l.mapM f = .ok (l.map g) := by
  intro l
  induction l with
  | nil => intro h; rfl
  | cons d rest ih =>
      intro h
      have hd := h d (List.mem_cons_self d rest)
      have hr := ih (fun x hx => h x (List.mem_cons_of_mem d hx))
      rw [List.mapM_cons, hd]
      simp only [Bind.bind, Except.bind]
      rw [hr]
      rfl

lemma exSum_ok {α : Type} [AddCommMonoid α] (f : Doc → Except String α) (g : Doc → α)
    (l : List Doc) (h : ∀ d ∈ l, f d = .ok (g d)) :
    exSum f l = .ok ((l.map g).sum) := by
  rw [exSum, exceptMapM_ok f g l h]
  rfl

/-- The per-record `portfolio_usd`/`par30` reading asserted by the amended
claim: a missing or falsy value (`None`, `""`, `0`) contributes 0, a number
contributes itself, a non-empty string is read as a decimal literal, and
any other value is uncoercible (`none`). -/
def numContribution : Option BVal → Option ℚ
  | none => some 0
  | some .null => some 0
  | some (.num q) => some q
  | some (.str s) => if s = "" then some 0 else pyFloatOfString s
  | some _ => none

/-- The per-record `active_borrowers` reading asserted by the amended
claim: missing or falsy contributes 0, a number is truncated toward zero,
a non-empty string is read as an integer literal, anything else is
uncoercible. -/
def intContribution : Option BVal → Option ℤ
  | none => some 0
  | some .null => some 0
  | some (.num q) => some (ratTrunc q)
  | some (.str s) => if s = "" then some 0 else pyIntOfString s
  | some _ => none

lemma num_bridge (k : String) (d : Doc) (q : ℚ)
    (h : numContribution (dLookup k d) = some q) :
    pyFloat (orZero (getOr0 k d)) = .ok q := by
  unfold getOr0
  cases hv : dLookup k d with
  | none =>
      rw [hv] at h
      simp only [numContribution, Option.some.injEq] at h
      simp [orZero, pyTruthy, pyFloat, ← h]
  | some v =>
      rw [hv] at h
      cases v with
      | null =>
          simp only [numContribution, Option.some.injEq] at h
          simp [orZero, pyTruthy, pyFloat, ← h]
      | num r =>
          simp only [numContribution, Option.some.injEq] at h
          subst h
          by_cases hr : r = 0
          · subst hr
            simp [orZero, pyTruthy, pyFloat]
          · simp [orZero, pyTruthy, pyFloat, hr]
      | str s =>
          simp only [numContribution] at h
          by_cases hs : s = ""
          · subst hs
            rw [if_pos rfl] at h
            cases h
            simp [orZero, pyTruthy, pyFloat]
          · rw [if_neg hs] at h
            simp [orZero, pyTruthy, pyFloat, hs, h]
      | oid s => simp [numContribution] at h
      | date s => simp [numContribution] at h

lemma int_bridge (k : String) (d : Doc) (n : ℤ)
    (h : intContribution (dLookup k d) = some n) :
    pyInt (orZero (getOr0 k d)) = .ok n := by
  unfold getOr0
  cases hv : dLookup k d with
  | none =>
      rw [hv] at h
      simp only [intContribution, Option.some.injEq] at h
      simp [orZero, pyTruthy, pyInt, ratTrunc, ← h]
  | some v =>
      rw [hv] at h
      cases v with
      | null =>
          simp only [intContribution, Option.some.injEq] at h
          simp [orZero, pyTruthy, pyInt, ratTrunc, ← h]
      | num r =>
          simp only [intContribution, Option.some.injEq] at h
          subst h
          by_cases hr : r = 0
          · subst hr
            simp [orZero, pyTruthy, pyInt]
          · simp [orZero, pyTruthy, pyInt, hr]
      | str s =>
          simp only [intContribution] at h
          by_cases hs : s = ""
          · subst hs
            rw [if_pos rfl] at h
            cases h
            simp [orZero, pyTruthy, pyInt, ratTrunc]
          · rw [if_neg hs] at h
            simp [orZero, pyTruthy, pyInt, hs, h]
      | oid s => simp [intContribution] at h
      | date s => simp [intContribution] at h

lemma company_stats_eval (st : Store) (hne : st.company ≠ [])
    (sp : ℚ) (sb : ℤ) (sr : ℚ)
    (hp : exSum portfolioTerm st.company = .ok sp)
    (hb : exSum borrowersTerm st.company = .ok sb)
    (hr : exSum par30Term st.company = .ok sr) :
    company_stats (some st) = .ok ⟨st.company.length, round2 sp,
      round2 (sr / st.company.length), sb, (countriesSet st.company).length⟩ := by
  simp only [company_stats]
  rw [if_neg (by simpa [List.length_eq_zero] using hne), hp, hb, hr]

lemma company_stats_sum_spec (st : Store) (hne : st.company ≠ [])
    (h : ∀ d ∈ st.company,
      (numContribution (dLookup "portfolio_usd" d)).isSome ∧
      (intContribution (dLookup "active_borrowers" d)).isSome ∧
      (numContribution (dLookup "par30" d)).isSome) :
    company_stats (some st) = .ok ⟨st.company.length,
      round2 ((st.company.map
        (fun d => (numContribution (dLookup "portfolio_usd" d)).getD 0)).sum),
      round2 (((st.company.map
        (fun d => (numContribution (dLookup "par30" d)).getD 0)).sum) /
          st.company.length),
      (st.company.map
        (fun d => (intContribution (dLookup "active_borrowers" d)).getD 0)).sum,
      (countriesSet st.company).length⟩ := by
  have hp := exSum_ok portfolioTerm
      (fun d => (numContribution (dLookup "portfolio_usd" d)).getD 0) st.company ?_
  have hb := exSum_ok borrowersTerm
      (fun d => (intContribution (dLookup "active_borrowers" d)).getD 0) st.company ?_
  have hr := exSum_ok par30Term
      (fun d => (numContribution (dLookup "par30" d)).getD 0) st.company ?_
  · exact company_stats_eval st hne _ _ _ hp hb hr
  · intro d hd
    obtain ⟨q, hq⟩ := Option.isSome_iff_exists.mp (h d hd).2.2
    have hq2 : numContribution (dLookup "par30" d) =
        some ((numContribution (dLookup "par30" d)).getD 0) := by
      rw [hq]; rfl
    simpa [par30Term] using num_bridge _ _ _ hq2
  · intro d hd
    obtain ⟨n, hn⟩ := Option.isSome_iff_exists.mp (h d hd).2.1
    have hn2 : intContribution (dLookup "active_borrowers" d) =
        some ((intContribution (dLookup "active_borrowers" d)).getD 0) := by
      rw [hn]; rfl
    simpa [borrowersTerm] using int_bridge _ _ _ hn2
  · intro d hd
    obtain ⟨q, hq⟩ := Option.isSome_iff_exists.mp (h d hd).1
    have hq2 : numContribution (dLookup "portfolio_usd" d) =
        some ((numContribution (dLookup "portfolio_usd" d)).getD 0) := by
      rw [hq]; rfl
    simpa [portfolioTerm] using num_bridge _ _ _ hq2

/-- C1: the claim that aggregation treats any non-numeric value as 0 (and in
particular succeeds on such records) is refuted: on a collection whose only
record has `portfolio_usd = "abc"`, `float("abc")` raises and `stats`
fails with an uncaught `ValueError` instead of counting the record as 0. -/
theorem C1_counterexample :
    company_stats (some ⟨[[("portfolio_usd", BVal.str "abc")]], 0⟩) =
      .error (.runtime "could not convert string to float") := by
  decide

/-- C1 (amended): `total_portfolio_usd` is the rounded sum of the
per-record `portfolio_usd` readings and `active_borrowers` the sum of the
`active_borrowers` readings, where a missing or falsy value (`None`, `""`,
`0`) contributes 0 and a numeric string is coerced to its value — but only
when every record's `portfolio_usd`, `active_borrowers` and `par30` is so
coercible; a truthy non-numeric value makes `stats` fail instead of
contributing 0. -/
theorem C1_amended (st : Store)
    (h : ∀ d ∈ st.company,
      (numContribution (dLookup "portfolio_usd" d)).isSome ∧
      (intContribution (dLookup "active_borrowers" d)).isSome ∧
      (numContribution (dLookup "par30" d)).isSome) :
    ∃ s, company_stats (some st) = .ok s ∧
      s.total_companies = st.company.length ∧
      s.total_portfolio_usd = round2 ((st.company.map
        (fun d => (numContribution (dLookup "portfolio_usd" d)).getD 0)).sum) ∧
      s.active_borrowers = (st.company.map
        (fun d => (intContribution (dLookup "active_borrowers" d)).getD 0)).sum := by
  by_cases hz : st.company = []
  · refine ⟨⟨0, 0, 0, 0, 0⟩, by simp [company_stats, hz], by simp [hz], ?_, by simp [hz]⟩
    rw [hz]
    norm_num [round2, roundHalfEven]
  · exact ⟨_, company_stats_sum_spec st hz h, rfl, rfl, rfl⟩

/-- Closed instance of `C1_amended` on a one-record collection whose
`portfolio_usd` is the numeric string `"7"`. -/
theorem C1_witness :
    ∃ s, company_stats (some ⟨[[("portfolio_usd", BVal.str "7"),
        ("active_borrowers", BVal.num 2), ("par30", BVal.num 1)]], 0⟩) = .ok s ∧
      s.total_companies = [[("portfolio_usd", BVal.str "7"),
        ("active_borrowers", BVal.num 2), ("par30", BVal.num 1)]].length ∧
      s.total_portfolio_usd = round2 (([[("portfolio_usd", BVal.str "7"),
        ("active_borrowers", BVal.num 2), ("par30", BVal.num 1)]].map
        (fun d => (numContribution (dLookup "portfolio_usd" d)).getD 0)).sum) ∧
      s.active_borrowers = ([[("portfolio_usd", BVal.str "7"),
        ("active_borrowers", BVal.num 2), ("par30", BVal.num 1)]].map
        (fun d => (intContribution (dLookup "active_borrowers" d)).getD 0)).sum :=
  C1_amended ⟨[[("portfolio_usd", BVal.str "7"),
    ("active_borrowers", BVal.num 2), ("par30", BVal.num 1)]], 0⟩ (by decide)

/-- C5: on an empty collection `stats` returns the all-zero aggregate — a
success, not an error and not null. -/
theorem C5_empty_stats (st : Store) (h : st.company = []) :
    company_stats (some st) = .ok ⟨0, 0, 0, 0, 0⟩ := by
  simp [company_stats, h]

/-- Closed instance of `C5_empty_stats` at a concrete empty store. -/
theorem C5_witness :
    company_stats (some ⟨[], 0⟩) = .ok ⟨0, 0, 0, 0, 0⟩ :=
  C5_empty_stats ⟨[], 0⟩ rfl

/-- C9: on the three-record collection with `portfolio_usd` 100, 200.555, 0
and `par30` 10, 20, 0, `stats` succeeds with `total_portfolio_usd` 300.56
(the half-even rounding of 300.555), `avg_par30` 10 and `total_companies`
3. -/
theorem C9_example_stats :
    ∃ s, company_stats (some ⟨[
        [("portfolio_usd", BVal.num 100), ("par30", BVal.num 10)],
        [("portfolio_usd", BVal.num (200555/1000)), ("par30", BVal.num 20)],
        [("portfolio_usd", BVal.num 0), ("par30", BVal.num 0)]], 0⟩) = .ok s ∧
      s.total_portfolio_usd = 30056/100 ∧
      s.avg_par30 = 10 ∧
      s.total_companies = 3 := by
  have heq := company_stats_sum_spec ⟨[
      [("portfolio_usd", BVal.num 100), ("par30", BVal.num 10)],
      [("portfolio_usd", BVal.num (200555/1000)), ("par30", BVal.num 20)],
      [("portfolio_usd", BVal.num 0), ("par30", BVal.num 0)]], 0⟩
    (by decide) (by decide)
  refine ⟨_, heq, ?_, ?_, rfl⟩
  · show round2 (([
        [("portfolio_usd", BVal.num 100), ("par30", BVal.num 10)],
        [("portfolio_usd", BVal.num (200555/1000)), ("par30", BVal.num 20)],
        [("portfolio_usd", BVal.num 0), ("par30", BVal.num 0)]].map
        (fun d => (numContribution (dLookup "portfolio_usd" d)).getD 0)).sum) = 30056/100
    have hm : ([
        [("portfolio_usd", BVal.num 100), ("par30", BVal.num 10)],
        [("portfolio_usd", BVal.num (200555/1000)), ("par30", BVal.num 20)],
        [("portfolio_usd", BVal.num 0), ("par30", BVal.num 0)]].map
        (fun d => (numContribution (dLookup "portfolio_usd" d)).getD 0)) =
          [100, 200555/1000, 0] := rfl
    rw [hm]
    norm_num [round2, roundHalfEven, List.sum_cons, List.sum_nil]
  · show round2 ((([
        [("portfolio_usd", BVal.num 100), ("par30", BVal.num 10)],
        [("portfolio_usd", BVal.num (200555/1000)), ("par30", BVal.num 20)],
        [("portfolio_usd", BVal.num 0), ("par30", BVal.num 0)]].map
        (fun d => (numContribution (dLookup "par30" d)).getD 0)).sum) / (3 : Nat)) = 10
    have hm : ([
        [("portfolio_usd", BVal.num 100), ("par30", BVal.num 10)],
        [("portfolio_usd", BVal.num (200555/1000)), ("par30", BVal.num 20)],
        [("portfolio_usd", BVal.num 0), ("par30", BVal.num 0)]].map
        (fun d => (numContribution (dLookup "par30" d)).getD 0)) =
          [10, 20, 0] := rfl
    rw [hm]
    norm_num [round2, roundHalfEven, List.sum_cons, List.sum_nil]

/-- C6: an input violating the declared constraints is rejected with a 422
validation error and nothing is persisted — the store passed in is the
store after the call.  The listed examples (`portfolio_usd = -5`, missing
`name`, `par30` above 100) all violate the constraints. -/
theorem C6_validation_no_persist :
    (∀ (db : Option Store) (p : Doc) (m : String),
        validateCompanyIn p = .error m →
          create_company db p = (.error (.http 422 m), db)) ∧
    (validateCompanyIn [("name", BVal.str "A"), ("country", BVal.str "B"),
        ("portfolio_usd", BVal.num (-5))]).isOk = false ∧
    (validateCompanyIn [("country", BVal.str "B")]).isOk = false ∧
    (validateCompanyIn [("name", BVal.str "A"), ("country", BVal.str "B"),
        ("par30", BVal.num 101)]).isOk = false := by
  refine ⟨?_, by decide, by decide, by decide⟩
  intro db p m h
  simp [create_company, h]

/-- Closed instance of `C6_validation_no_persist`: `create` with
`portfolio_usd = -5` answers 422 and leaves the store exactly as it was. -/
theorem C6_witness :
    create_company (some ⟨[], 0⟩) [("name", BVal.str "A"), ("country", BVal.str "B"),
        ("portfolio_usd", BVal.num (-5))] =
      (.error (.http 422
        "portfolio_usd: Input should be greater than or equal to the lower bound"),
       some ⟨[], 0⟩) :=
  C6_validation_no_persist.1 (some ⟨[], 0⟩)
    [("name", BVal.str "A"), ("country", BVal.str "B"),
      ("portfolio_usd", BVal.num (-5))]
    "portfolio_usd: Input should be greater than or equal to the lower bound"
    (by decide)

lemma company_stats_some_cases (st : Store) :
    (∃ s, company_stats (some st) = .ok s) ∨
    (∃ m, company_stats (some st) = .error (.runtime m)) := by
  simp only [company_stats]
  by_cases hz : st.company.length = 0
  · rw [if_pos hz]
    exact Or.inl ⟨_, rfl⟩
  · rw [if_neg hz]
    cases h1 : exSum portfolioTerm st.company with
    | error m => exact Or.inr ⟨m, rfl⟩
    | ok sp =>
        cases h2 : exSum borrowersTerm st.company with
        | error m => exact Or.inr ⟨m, rfl⟩
        | ok sb =>
            cases h3 : exSum par30Term st.company with
            | error m => exact Or.inr ⟨m, rfl⟩
            | ok sr => exact Or.inl ⟨_, rfl⟩

/-- C7: the claim that each endpoint fails with `ServiceUnavailable` if and
only if the store is unconfigured is refuted: with the store unconfigured
(`db = None`) but an invalid payload, `create` fails with the 422
validation error — FastAPI validates the body before the handler's store
check runs — not with the 500 `ServiceUnavailable`. -/
theorem C7_counterexample :
    (create_company none [("country", BVal.str "B")]).1 =
      .error (.http 422 "name: Field required") ∧
    ApiError.http 422 "name: Field required" ≠ dbNotConfigured := by
  decide

lemma list_companies_none_error (q c s : Option String) (lim : Option ℤ)
    (out : List Doc) : list_companies none q c s lim ≠ .ok out := by
  cases hval : validateLimit lim <;> simp [list_companies, hval]

lemma list_companies_some_eq (st : Store) (q c s : Option String)
    (lim : Option ℤ) (n : ℤ) (hval : validateLimit lim = .ok n) :
    list_companies (some st) q c s lim =
      match serializeAll (get_documents st (buildFilter q c s) n) with
      | some out => Except.ok out
      | none => Except.error (.runtime "KeyError: _id") := by
  simp [list_companies, hval]

/-- C7 (amended): for requests that pass input validation (a valid `limit`
for `list`, a valid payload for `create`, and always for `stats`), each of
the three endpoints fails with `ServiceUnavailable` (HTTP 500, store not
configured) exactly when the store handle is `None`; with a configured
store none of them returns that error. -/
theorem C7_amended :
    (∀ (q c s : Option String) (lim : Option ℤ),
        (validateLimit lim).isOk = true →
          (list_companies none q c s lim = .error dbNotConfigured ∧
           ∀ st : Store,
             list_companies (some st) q c s lim ≠ .error dbNotConfigured)) ∧
    (∀ p : Doc, (validateCompanyIn p).isOk = true →
        ((create_company none p).1 = .error dbNotConfigured ∧
         ∀ st : Store,
           (create_company (some st) p).1 ≠ .error dbNotConfigured)) ∧
    (company_stats none = .error dbNotConfigured ∧
     ∀ st : Store, company_stats (some st) ≠ .error dbNotConfigured) := by
  refine ⟨?_, ?_, ?_, ?_⟩
  · intro q c s lim hv
    cases hval : validateLimit lim with
    | error e => rw [hval] at hv; simp [Except.isOk, Except.toBool] at hv
    | ok n =>
        constructor
        · simp [list_companies, hval]
        · intro st
          rw [list_companies_some_eq st q c s lim n hval]
          cases hm : serializeAll (get_documents st (buildFilter q c s) n) <;>
            simp [dbNotConfigured]
  · intro p hp
    cases hval : validateCompanyIn p with
    | error m => rw [hval] at hp; simp [Except.isOk, Except.toBool] at hp
    | ok c =>
        constructor
        · simp [create_company, hval]
        · intro st
          simp [create_company, hval, dbNotConfigured]
  · rfl
  · intro st h
    rcases company_stats_some_cases st with ⟨s, hs⟩ | ⟨m, hm⟩
    · rw [hs] at h
      exact Except.noConfusion h
    · rw [hm] at h
      simp [dbNotConfigured] at h

/-- Closed instance of `C7_amended` at concrete requests. -/
theorem C7_witness :
    list_companies none none none none none = .error dbNotConfigured ∧
    list_companies (some ⟨[], 0⟩) none none none none ≠ .error dbNotConfigured ∧
    (create_company none [("name", BVal.str "A"), ("country", BVal.str "B")]).1 =
      .error dbNotConfigured ∧
    company_stats (some ⟨[], 0⟩) ≠ .error dbNotConfigured :=
  ⟨(C7_amended.1 none none none none (by decide)).1,
   (C7_amended.1 none none none none (by decide)).2 ⟨[], 0⟩,
   (C7_amended.2.1 [("name", BVal.str "A"), ("country", BVal.str "B")] (by decide)).1,
   C7_amended.2.2.2 ⟨[], 0⟩⟩

lemma get_documents_length (st : Store) (f : QueryFilter) (lim : ℤ) :
    (get_documents st f lim).length ≤ lim.toNat := by
  simp [get_documents, List.length_take]

/-- C8: `list` never returns more than `limit` records (100 when the
parameter is absent — its declared default), and a `limit` outside
`[1, 500]` is rejected with a 422 rather than honored. -/
theorem C8_limit_cap :
    (∀ (db : Option Store) (q c s : Option String) (lim : Option ℤ)
        (out : List Doc),
        list_companies db q c s lim = .ok out →
          out.length ≤ (match lim with | none => 100 | some n => n.toNat)) ∧
    validateLimit none = .ok 100 ∧
    (∀ n : ℤ, ¬ (1 ≤ n ∧ n ≤ 500) →
        ∀ (db : Option Store) (q c s : Option String),
          list_companies db q c s (some n) =
            .error (.http 422 "Input should be between 1 and 500")) := by
  refine ⟨?_, rfl, ?_⟩
  · intro db q c s lim out hout
    have key : ∀ (st : Store) (n : ℤ),
        serializeAll (get_documents st (buildFilter q c s) n) = some out →
          out.length ≤ n.toNat := by
      intro st n hm
      rw [serializeAll] at hm
      rw [optionMapM_length serialize _ out hm]
      exact get_documents_length st (buildFilter q c s) n
    cases db with
    | none => exact absurd hout (list_companies_none_error q c s lim out)
    | some st =>
        cases lim with
        | none =>
            rw [list_companies_some_eq st q c s none 100 rfl] at hout
            cases hm : serializeAll (get_documents st (buildFilter q c s) 100) with
            | none => rw [hm] at hout; exact absurd hout (by simp)
            | some l =>
                rw [hm] at hout
                simp only [Except.ok.injEq] at hout
                rw [hout] at hm
                simpa using key st 100 hm
        | some n =>
            by_cases hcond : 1 ≤ n ∧ n ≤ 500
            · have hval : validateLimit (some n) = .ok n := by
                simp [validateLimit, hcond]
              rw [list_companies_some_eq st q c s (some n) n hval] at hout
              cases hm : serializeAll (get_documents st (buildFilter q c s) n) with
              | none => rw [hm] at hout; exact absurd hout (by simp)
              | some l =>
                  rw [hm] at hout
                  simp only [Except.ok.injEq] at hout
                  rw [hout] at hm
                  simpa using key st n hm
            · exact absurd hout
                (by simp [list_companies, validateLimit, hcond])
  · intro n h db q c s
    simp [list_companies, validateLimit, h]

/-- Closed instance of `C8_limit_cap`: a successful request is within the
default cap, and `limit=501` is rejected. -/
theorem C8_witness :
    [[("name", BVal.str "Acme"), ("id", BVal.str "1")]].length ≤
      (match (none : Option ℤ) with | none => 100 | some n => n.toNat) ∧
    list_companies none none none none (some 501) =
      .error (.http 422 "Input should be between 1 and 500") :=
  ⟨C8_limit_cap.1 (some ⟨[[("_id", BVal.oid "1"), ("name", BVal.str "Acme")]], 1⟩)
      none none none none [[("name", BVal.str "Acme"), ("id", BVal.str "1")]]
      (by decide),
   C8_limit_cap.2.2 501 (by decide) none none none none⟩
